import Mathlib

/-!
Shallow embedding of the `bigcommerce` Go client (`inventory.go`):
inventory lookup and order-shipment CRUD operations.

Modelling conventions:
* Go `int64` fields are modelled as `Int` (no arithmetic is performed on
  them in the source, so no overflow modelling is needed); `fmt.Sprintf`
  with `%d` is `toString`.
* A Go `map[string]string` of filters is modelled as an association list
  `List (String × String)` in the (unspecified) map-iteration order.
* Fallible Go calls returning `(T, error)` are modelled as `Except GoErr T`;
  the delete operations returning `(bool, error)` are modelled as
  `Bool × Option GoErr`.
* The external collaborators (`bc.HTTPClient.Do`, `processBody`, and
  `json.Unmarshal` into each target type) live outside this file's source
  and are quantified over as an `Env` record of functions; every theorem
  holds for an arbitrary environment.
* `json.Marshal` of the `Shipment` struct is total for these types (it can
  only fail on unsupported Go types), so it is embedded as a total
  function `shipmentToJSON` reproducing Go `encoding/json` output for the
  struct tags in the source: field order is declaration order, `omitempty`
  drops zero values (0, "", nil pointer, nil slice), strings are quoted
  with Go's default escaping (including HTML-escaping of <, >, &), and a
  nil `Items` slice marshals as `null`.
-/

/-- Go `error` values are opaque here; only propagation is observed. -/
abbrev GoErr := String

/-- An HTTP response as far as the source observes it: status code and body. -/
structure HttpResponse where
  statusCode : Nat
  body : String
  deriving Repr, DecidableEq

/-- Modelled from the spec: `getAPIRequest` (not in `src/`) builds an
authenticated request for (method, path, optional body); auth-header
construction is delegated and unobservable here, so a request is just the
triple handed to it. -/
structure Request where
  method : String
  url : String
  body : Option String
  deriving Repr, DecidableEq

/-- Struct `Identity` from `inventory.go`. -/
structure Identity where
  Sku : String := ""
  VariantID : Int := 0
  ProductID : Int := 0
  deriving Repr, DecidableEq

/-- Struct `Settings` from `inventory.go`. -/
structure Settings where
  SafetyStock : Int := 0
  IsInStock : Bool := false
  WarningLevel : Int := 0
  BinPickingNumber : String := ""
  deriving Repr, DecidableEq

/-- Struct `Inventory` from `inventory.go`. -/
structure Inventory where
  Identity : Identity := {}
  AvailableToSell : Int := 0
  TotalInventoryOnhand : Int := 0
  Settings : Settings := {}
  deriving Repr, DecidableEq

/-- Struct `Links` from `inventory.go`. -/
structure Links where
  Previous : String := ""
  Current : String := ""
  Next : String := ""
  deriving Repr, DecidableEq

/-- Modelled from the spec: the `Pagination` type referenced by `Meta` is
defined elsewhere in the repository (not in `src/`); the spec describes
`PaginationMeta` as the link triple {previousLink, currentLink, nextLink}. -/
structure Pagination where
  PreviousLink : String := ""
  CurrentLink : String := ""
  NextLink : String := ""
  deriving Repr, DecidableEq

/-- Struct `Meta` from `inventory.go`. -/
structure Meta where
  Pagination : Pagination := {}
  deriving Repr, DecidableEq

/-- Struct `InventoryResource` from `inventory.go`; `{}` is the Go zero value
`InventoryResource{}` (nil slice ≈ empty list for the claims at hand). -/
structure InventoryResource where
  Inventories : List Inventory := []
  Meta : Meta := {}
  deriving Repr, DecidableEq

/-- Struct `ShipmentAddress` from `inventory.go` (all fields plain strings, no
`omitempty`). -/
structure ShipmentAddress where
  FirstName : String := ""
  LastName : String := ""
  Company : String := ""
  Street1 : String := ""
  Street2 : String := ""
  City : String := ""
  State : String := ""
  Zip : String := ""
  Country : String := ""
  CountryIso2 : String := ""
  Phone : String := ""
  Email : String := ""
  deriving Repr, DecidableEq

/-- Struct `ShipmentItem` from `inventory.go`; `ProductId` carries `omitempty`. -/
structure ShipmentItem where
  OrderProductId : Int := 0
  ProductId : Int := 0
  Quantity : Int := 0
  deriving Repr, DecidableEq

/-- Struct `Shipment` from `inventory.go`. Field defaults are the Go zero values,
so `{}` is `Shipment{}`. The two address pointers are `Option`; the
`Items []ShipmentItem` slice is `Option (List ShipmentItem)` so that a nil
slice (marshalling to `null`) stays distinct from an empty one. -/
structure Shipment where
  ID : Int := 0
  OrderId : Int := 0
  CustomerId : Int := 0
  OrderAddressId : Int := 0
  DateCreated : String := ""
  TrackingNumber : String := ""
  MerchantShippingCost : String := ""
  ShippingMethod : String := ""
  Comments : String := ""
  ShippingProvider : String := ""
  TrackingCarrier : String := ""
  BillingAddress : Option ShipmentAddress := none
  ShippingAddress : Option ShipmentAddress := none
  Items : Option (List ShipmentItem) := none
  deriving Repr, DecidableEq

/-- Lower-case hex digit, as used by Go `encoding/json` `\u00xx` escapes. -/
def hexDigit (n : Nat) : Char :=
  if n < 10 then Char.ofNat (48 + n) else Char.ofNat (87 + (n % 16))

/-- Escaping of one character per Go `encoding/json` default encoding:
backslash and quote escaped, `\n`/`\r`/`\t` short forms, other control
characters as `\u00xx`, HTML-sensitive `<`, `>`, `&` as `\u00XX`, and
U+2028/U+2029 escaped. -/
def escapeChar (c : Char) : String :=
  if c = '"' then "\\\""
  else if c = '\\' then "\\\\"
  else if c = '\n' then "\\n"
  else if c = '\r' then "\\r"
  else if c = '\t' then "\\t"
  else if c.toNat < 32 then
    "\\u00" ++ String.singleton (hexDigit (c.toNat / 16)) ++ String.singleton (hexDigit (c.toNat % 16))
  else if c = '<' then "\\u003c"
  else if c = '>' then "\\u003e"
  else if c = '&' then "\\u0026"
  else if c.toNat = 8232 then "\\u2028"
  else if c.toNat = 8233 then "\\u2029"
  else String.singleton c

/-- A JSON string literal for `s`, per Go `encoding/json`. -/
def quoteJSON (s : String) : String :=
  "\"" ++ String.join (s.data.map escapeChar) ++ "\""

/-- Go `encoding/json` output for a `ShipmentItem` (declaration order;
`product_id` has `omitempty`). -/
def shipmentItemToJSON (it : ShipmentItem) : String :=
  "\x7b" ++ String.intercalate ","
    (["\"order_product_id\":" ++ toString it.OrderProductId]
      ++ (if it.ProductId ≠ 0 then ["\"product_id\":" ++ toString it.ProductId] else [])
      ++ ["\"quantity\":" ++ toString it.Quantity]) ++ "\x7d"

/-- Go `encoding/json` output for a `ShipmentAddress` (no `omitempty` tags). -/
def shipmentAddressToJSON (a : ShipmentAddress) : String :=
  "\x7b" ++ String.intercalate ","
    [ "\"first_name\":" ++ quoteJSON a.FirstName
    , "\"last_name\":" ++ quoteJSON a.LastName
    , "\"company\":" ++ quoteJSON a.Company
    , "\"street_1\":" ++ quoteJSON a.Street1
    , "\"street_2\":" ++ quoteJSON a.Street2
    , "\"city\":" ++ quoteJSON a.City
    , "\"state\":" ++ quoteJSON a.State
    , "\"zip\":" ++ quoteJSON a.Zip
    , "\"country\":" ++ quoteJSON a.Country
    , "\"country_iso2\":" ++ quoteJSON a.CountryIso2
    , "\"phone\":" ++ quoteJSON a.Phone
    , "\"email\":" ++ quoteJSON a.Email ] ++ "\x7d"

/-- Go `encoding/json` output for the `Items []ShipmentItem` slice: nil
marshals as `null`, otherwise a JSON array. -/
def itemsToJSON : Option (List ShipmentItem) → String
  | none => "null"
  | some l => "[" ++ String.intercalate "," (l.map shipmentItemToJSON) ++ "]"

/-- The object members Go `encoding/json` emits for a `Shipment`, as
(label, rendered value) pairs in struct-declaration order, with
`omitempty` fields dropped at their zero value. -/
def shipmentFields (s : Shipment) : List (String × String) :=
  (if s.ID ≠ 0 then [("id", toString s.ID)] else [])
  ++ (if s.OrderId ≠ 0 then [("order_id", toString s.OrderId)] else [])
  ++ (if s.CustomerId ≠ 0 then [("customer_id", toString s.CustomerId)] else [])
  ++ (if s.OrderAddressId ≠ 0 then [("order_address_id", toString s.OrderAddressId)] else [])
  ++ (if s.DateCreated ≠ "" then [("date_created", quoteJSON s.DateCreated)] else [])
  ++ [ ("tracking_number", quoteJSON s.TrackingNumber)
     , ("merchant_shipping_cost", quoteJSON s.MerchantShippingCost)
     , ("shipping_method", quoteJSON s.ShippingMethod)
     , ("comments", quoteJSON s.Comments)
     , ("shipping_provider", quoteJSON s.ShippingProvider)
     , ("tracking_carrier", quoteJSON s.TrackingCarrier) ]
  ++ (match s.BillingAddress with
      | none => []
      | some a => [("billing_address", shipmentAddressToJSON a)])
  ++ (match s.ShippingAddress with
      | none => []
      | some a => [("shipping_address", shipmentAddressToJSON a)])
  ++ [("items", itemsToJSON s.Items)]

/-- Output of `json.Marshal` for a `Shipment`. -/
def shipmentToJSON (s : Shipment) : String :=
  "\x7b" ++ String.intercalate ","
    ((shipmentFields s).map fun f => quoteJSON f.1 ++ ":" ++ f.2) ++ "\x7d"

/-- The `params` slice built by the `for k, v := range filters` loops
(`fmt.Sprintf("%s=%s", k, v)` per entry). -/
def filterParams (filters : List (String × String)) : List String :=
  filters.map fun p => p.1 ++ "=" ++ p.2

/-- Value of `strings.Join(params, "&")` over the rendered filter entries. -/
def queryJoin (filters : List (String × String)) : String :=
  String.intercalate "&" (filterParams filters)

/-- The allow-list reconstruction in `CreateOrderShipment` and
`UpdateOrderShipment` (`inventory.go` lines 159–167 and 260–268): a fresh
`Shipment` composite literal keeping only the writable fields, every other
field left at its Go zero value. -/
def writableShipment (shipment : Shipment) : Shipment :=
  { OrderAddressId := shipment.OrderAddressId
  , TrackingNumber := shipment.TrackingNumber
  , ShippingMethod := shipment.ShippingMethod
  , Comments := shipment.Comments
  , ShippingProvider := shipment.ShippingProvider
  , TrackingCarrier := shipment.TrackingCarrier
  , Items := shipment.Items }

/-- The request built by `GetInventoryForLocation`: GET, URL
`fmt.Sprintf("/v3/inventory/locations/%d/items", ID) + strings.Join(params, "&")`,
nil body. -/
def getInventoryRequest (ID : Int) (filters : List (String × String)) : Request :=
  { method := "GET"
  , url := ("/v3/inventory/locations/" ++ toString ID ++ "/items") ++ queryJoin filters
  , body := none }

/-- The request built by `GetOrderShipments`: GET, URL
`fmt.Sprintf("/v2/orders/%d/shipments?%s", orderId, strings.Join(params, "&"))`,
nil body. -/
def getOrderShipmentsRequest (orderId : Int) (filters : List (String × String)) : Request :=
  { method := "GET"
  , url := "/v2/orders/" ++ toString orderId ++ "/shipments?" ++ queryJoin filters
  , body := none }

/-- The request built by `GetOrderShipment`: GET on
`/v2/orders/{orderId}/shipments/{shipmentId}`, nil body. -/
def getOrderShipmentRequest (orderId shipmentId : Int) : Request :=
  { method := "GET"
  , url := "/v2/orders/" ++ toString orderId ++ "/shipments/" ++ toString shipmentId
  , body := none }

/-- The request built by `CreateOrderShipment`: POST on
`/v2/orders/{orderId}/shipments`, body the marshalled allow-list
reconstruction of the input shipment. -/
def createShipmentRequest (orderId : Int) (shipment : Shipment) : Request :=
  { method := "POST"
  , url := "/v2/orders/" ++ toString orderId ++ "/shipments"
  , body := some (shipmentToJSON (writableShipment shipment)) }

/-- The request built by `UpdateOrderShipment`: PUT on
`/v2/orders/{orderId}/shipments/{shipment.ID}` — the URL is formatted from
the caller-supplied `shipment.ID` before the allow-list reassignment — with
body the marshalled allow-list reconstruction. -/
def updateShipmentRequest (orderId : Int) (shipment : Shipment) : Request :=
  { method := "PUT"
  , url := "/v2/orders/" ++ toString orderId ++ "/shipments/" ++ toString shipment.ID
  , body := some (shipmentToJSON (writableShipment shipment)) }

/-- The request built by `DeleteOrderShipments`: DELETE on
`/v2/orders/{orderId}/shipments`, nil body. -/
def deleteShipmentsRequest (orderId : Int) : Request :=
  { method := "DELETE"
  , url := "/v2/orders/" ++ toString orderId ++ "/shipments"
  , body := none }

/-- The request built by `DeleteOrderShipment`: DELETE on
`/v2/orders/{orderId}/shipments/{shipmentId}`, nil body. -/
def deleteShipmentRequest (orderId shipmentId : Int) : Request :=
  { method := "DELETE"
  , url := "/v2/orders/" ++ toString orderId ++ "/shipments/" ++ toString shipmentId
  , body := none }

/-- The external collaborators of the source, quantified over: the injected
HTTP transport (`bc.HTTPClient.Do`), the shared body extractor
(`processBody`, defined outside `src/`), and `json.Unmarshal` at each
target type (decode failure is any Go unmarshalling error). -/
structure Env where
  Do : Request → Except GoErr HttpResponse
  processBody : HttpResponse → Except GoErr String
  unmarshalInventory : String → Except GoErr InventoryResource
  unmarshalShipments : String → Except GoErr (List Shipment)
  unmarshalShipment : String → Except GoErr (Option Shipment)

/-- Method `Client.GetInventoryForLocation` (`inventory.go` 43–73). -/
def GetInventoryForLocation (env : Env) (ID : Int)
    (filters : List (String × String)) : Except GoErr InventoryResource :=
  match env.Do (getInventoryRequest ID filters) with
  | .error e => .error e
  | .ok res =>
    match env.processBody res with
    | .error e => if res.statusCode = 204 then .ok {} else .error e
    | .ok body =>
      match env.unmarshalInventory body with
      | .error e => .error e
      | .ok resource => .ok resource

/-- Method `Client.GetOrderShipments` (`inventory.go` 123–151). -/
def GetOrderShipments (env : Env) (orderId : Int)
    (filters : List (String × String)) : Except GoErr (List Shipment) :=
  match env.Do (getOrderShipmentsRequest orderId filters) with
  | .error e => .error e
  | .ok res =>
    match env.processBody res with
    | .error e => if res.statusCode = 204 then .ok [] else .error e
    | .ok body =>
      match env.unmarshalShipments body with
      | .error e => .error e
      | .ok shipments => .ok shipments

/-- Method `Client.CreateOrderShipment` (`inventory.go` 155–197); `json.Marshal`
of the reconstructed shipment cannot fail, so its error branch is absent. -/
def CreateOrderShipment (env : Env) (orderId : Int) (shipment : Shipment) :
    Except GoErr (Option Shipment) :=
  match env.Do (createShipmentRequest orderId shipment) with
  | .error e => .error e
  | .ok res =>
    match env.processBody res with
    | .error e => if res.statusCode = 204 then .ok (some {}) else .error e
    | .ok body =>
      match env.unmarshalShipment body with
      | .error e => .error e
      | .ok s => .ok s

/-- Method `Client.DeleteOrderShipments` (`inventory.go` 200–211): the response is
discarded; success iff the transport call returned without error. -/
def DeleteOrderShipments (env : Env) (orderId : Int) : Bool × Option GoErr :=
  match env.Do (deleteShipmentsRequest orderId) with
  | .error e => (false, some e)
  | .ok _ => (true, none)

/-- Method `Client.DeleteOrderShipment` (`inventory.go` 214–225). -/
def DeleteOrderShipment (env : Env) (orderId shipmentId : Int) : Bool × Option GoErr :=
  match env.Do (deleteShipmentRequest orderId shipmentId) with
  | .error e => (false, some e)
  | .ok _ => (true, none)

/-- Method `Client.GetOrderShipment` (`inventory.go` 228–252). -/
def GetOrderShipment (env : Env) (orderId shipmentId : Int) :
    Except GoErr (Option Shipment) :=
  match env.Do (getOrderShipmentRequest orderId shipmentId) with
  | .error e => .error e
  | .ok res =>
    match env.processBody res with
    | .error e => if res.statusCode = 204 then .ok (some {}) else .error e
    | .ok body =>
      match env.unmarshalShipment body with
      | .error e => .error e
      | .ok shipment => .ok shipment

/-- Method `Client.UpdateOrderShipment` (`inventory.go` 256–298). -/
def UpdateOrderShipment (env : Env) (orderId : Int) (shipment : Shipment) :
    Except GoErr (Option Shipment) :=
  match env.Do (updateShipmentRequest orderId shipment) with
  | .error e => .error e
  | .ok res =>
    match env.processBody res with
    | .error e => if res.statusCode = 204 then .ok (some {}) else .error e
    | .ok body =>
      match env.unmarshalShipment body with
      | .error e => .error e
      | .ok s => .ok s

/-- C1: the value serialized into the body of both write requests is the
allow-list reconstruction keeping only {orderAddressId, trackingNumber,
shippingMethod, comments, shippingProvider, trackingCarrier, items}; in
particular the serialized body never carries an `id`, `order_id`,
`customer_id`, `date_created`, `billing_address` or `shipping_address`
member, whatever the input shipment held in those fields. -/
theorem write_body_is_allow_list_reconstruction (orderId : Int) (s : Shipment) :
    (createShipmentRequest orderId s).body = some (shipmentToJSON (writableShipment s)) ∧
    (updateShipmentRequest orderId s).body = some (shipmentToJSON (writableShipment s)) ∧
    writableShipment s =
      { OrderAddressId := s.OrderAddressId
      , TrackingNumber := s.TrackingNumber
      , ShippingMethod := s.ShippingMethod
      , Comments := s.Comments
      , ShippingProvider := s.ShippingProvider
      , TrackingCarrier := s.TrackingCarrier
      , Items := s.Items } ∧
    (shipmentFields (writableShipment s)).map Prod.fst =
      (if s.OrderAddressId ≠ 0 then ["order_address_id"] else [])
        ++ [ "tracking_number", "merchant_shipping_cost", "shipping_method"
           , "comments", "shipping_provider", "tracking_carrier", "items" ] ∧
    "id" ∉ (shipmentFields (writableShipment s)).map Prod.fst ∧
    "order_id" ∉ (shipmentFields (writableShipment s)).map Prod.fst ∧
    "customer_id" ∉ (shipmentFields (writableShipment s)).map Prod.fst ∧
    "date_created" ∉ (shipmentFields (writableShipment s)).map Prod.fst ∧
    "billing_address" ∉ (shipmentFields (writableShipment s)).map Prod.fst ∧
    "shipping_address" ∉ (shipmentFields (writableShipment s)).map Prod.fst := by
  refine ⟨rfl, rfl, rfl, ?_, ?_, ?_, ?_, ?_, ?_, ?_⟩ <;>
    by_cases h : s.OrderAddressId = 0 <;>
      simp [shipmentFields, writableShipment, h]

/-- C4: `GetInventoryForLocation` builds its URL by appending the
`&`-joined `key=value` pairs directly after
`/v3/inventory/locations/{ID}/items`; the join step inserts no leading
`?` (nothing stands between the path and the joined pairs). -/
theorem inventory_url_appends_filters_without_question_mark
    (ID : Int) (filters : List (String × String)) :
    (getInventoryRequest ID filters).method = "GET" ∧
    (getInventoryRequest ID filters).url =
      ("/v3/inventory/locations/" ++ toString ID ++ "/items")
        ++ String.intercalate "&" (filters.map fun p => p.1 ++ "=" ++ p.2) := by
  exact ⟨rfl, rfl⟩

/-- C5: for a filter mapping with N entries, both query builders construct
`&`-joined strings of exactly N `key=value` segments, each segment drawn
verbatim from an input entry and each input entry rendered exactly once
(the segment list is the entry-wise image of the input list). -/
theorem query_string_has_one_segment_per_filter
    (ID orderId : Int) (filters : List (String × String)) :
    (filterParams filters).length = filters.length ∧
    (∀ p, p ∈ filters → p.1 ++ "=" ++ p.2 ∈ filterParams filters) ∧
    (∀ seg, seg ∈ filterParams filters → ∃ p, p ∈ filters ∧ seg = p.1 ++ "=" ++ p.2) ∧
    (getInventoryRequest ID filters).url =
      ("/v3/inventory/locations/" ++ toString ID ++ "/items")
        ++ String.intercalate "&" (filterParams filters) ∧
    (getOrderShipmentsRequest orderId filters).url =
      ("/v2/orders/" ++ toString orderId ++ "/shipments?")
        ++ String.intercalate "&" (filterParams filters) := by
  refine ⟨List.length_map _ _, ?_, ?_, rfl, ?_⟩
  · intro p hp
    exact List.mem_map_of_mem _ hp
  · intro seg hseg
    rcases List.mem_map.mp hseg with ⟨p, hp, rfl⟩
    exact ⟨p, hp, rfl⟩
  · rfl

/-- C5 witness: the theorem at the concrete mapping
`[("a","1"),("b","2")]`, discharging its membership hypotheses. -/
theorem query_string_has_one_segment_per_filter_witness :
    (filterParams [("a", "1"), ("b", "2")]).length = 2 ∧
    "a=1" ∈ filterParams [("a", "1"), ("b", "2")] ∧
    ∃ p, p ∈ [(("a" : String), ("1" : String)), ("b", "2")] ∧ "a=1" = p.1 ++ "=" ++ p.2 := by
  have h := query_string_has_one_segment_per_filter 42 7 [("a", "1"), ("b", "2")]
  refine ⟨h.1, ?_, ?_⟩
  · have hm := h.2.1 ("a", "1") (by simp)
    simpa using hm
  · have hs := h.2.2.1 "a=1" (by simp [filterParams])
    exact hs

/-- C7: the concrete create scenario — orderId 55, a shipment with only
tracking number `1Z999` and one item (order product 10, quantity 2) —
produces a POST to `/v2/orders/55/shipments` whose body is exactly the
specified JSON object, with addresses and server-assigned fields absent. -/
theorem create_shipment_scenario_55 :
    createShipmentRequest 55
        { TrackingNumber := "1Z999"
        , Items := some [{ OrderProductId := 10, Quantity := 2 }] } =
      { method := "POST"
      , url := "/v2/orders/55/shipments"
      , body := some "\x7b\"tracking_number\":\"1Z999\",\"merchant_shipping_cost\":\"\",\"shipping_method\":\"\",\"comments\":\"\",\"shipping_provider\":\"\",\"tracking_carrier\":\"\",\"items\":[\x7b\"order_product_id\":10,\"quantity\":2\x7d]\x7d" } := by
  set_option maxRecDepth 8192 in decide

/-- C8: the allow-list reconstruction shared by the create and update
paths is idempotent. -/
theorem writableShipment_idempotent (s : Shipment) :
    writableShipment (writableShipment s) = writableShipment s := rfl

/-- C9: with an empty filter mapping, `GetOrderShipments` requests
`/v2/orders/{orderId}/shipments?` (the `?` is always present) while
`GetInventoryForLocation` requests the bare
`/v3/inventory/locations/{ID}/items` with no separator at all. -/
theorem empty_filter_separator_conventions_differ (orderId ID : Int) :
    (getOrderShipmentsRequest orderId []).url =
      "/v2/orders/" ++ toString orderId ++ "/shipments?" ∧
    (getInventoryRequest ID []).url =
      "/v3/inventory/locations/" ++ toString ID ++ "/items" := by
  exact ⟨String.append_empty _, String.append_empty _⟩

/-- C10: `UpdateOrderShipment` takes the target path from the
caller-supplied `ID` field (formatted before the allow-list reconstruction
zeroes it), while the serialized body is the reconstruction whose `ID` is
zero and hence carries no `id` member; an input with `ID = 0` is sent as a
PUT to `/v2/orders/{orderId}/shipments/0`. -/
theorem update_path_uses_caller_id_body_does_not (orderId : Int) (s : Shipment) :
    (updateShipmentRequest orderId s).method = "PUT" ∧
    (updateShipmentRequest orderId s).url =
      "/v2/orders/" ++ toString orderId ++ "/shipments/" ++ toString s.ID ∧
    (updateShipmentRequest orderId s).body = some (shipmentToJSON (writableShipment s)) ∧
    (writableShipment s).ID = 0 ∧
    ("id", toString s.ID) ∉ shipmentFields (writableShipment s) ∧
    (updateShipmentRequest orderId { s with ID := 0 }).url =
      "/v2/orders/" ++ toString orderId ++ "/shipments/0" := by
  refine ⟨rfl, rfl, rfl, rfl, ?_, ?_⟩
  · by_cases h : s.OrderAddressId = 0 <;>
      simp [shipmentFields, writableShipment, h]
  · rw [show (updateShipmentRequest orderId { s with ID := 0 }).url =
        "/v2/orders/" ++ toString orderId ++ "/shipments/" ++ toString (0 : Int) from rfl,
      String.append_assoc]
    exact congrArg _ rfl

/-- C2: on every read or write operation, a body-extraction failure on a
204 No Content response yields the zero-value result (empty resource,
empty list, or zero-value shipment behind a non-nil pointer) and a nil
error, not an error. -/
theorem no_content_yields_zero_value (env : Env) (ID orderId shipmentId : Int)
    (filters filters2 : List (String × String)) (s : Shipment) :
    (∀ res e, env.Do (getInventoryRequest ID filters) = .ok res →
      env.processBody res = .error e → res.statusCode = 204 →
      GetInventoryForLocation env ID filters = .ok {}) ∧
    (∀ res e, env.Do (getOrderShipmentsRequest orderId filters2) = .ok res →
      env.processBody res = .error e → res.statusCode = 204 →
      GetOrderShipments env orderId filters2 = .ok []) ∧
    (∀ res e, env.Do (getOrderShipmentRequest orderId shipmentId) = .ok res →
      env.processBody res = .error e → res.statusCode = 204 →
      GetOrderShipment env orderId shipmentId = .ok (some {})) ∧
    (∀ res e, env.Do (createShipmentRequest orderId s) = .ok res →
      env.processBody res = .error e → res.statusCode = 204 →
      CreateOrderShipment env orderId s = .ok (some {})) ∧
    (∀ res e, env.Do (updateShipmentRequest orderId s) = .ok res →
      env.processBody res = .error e → res.statusCode = 204 →
      UpdateOrderShipment env orderId s = .ok (some {})) := by
  refine ⟨?_, ?_, ?_, ?_, ?_⟩ <;>
    (intro res e h1 h2 h3;
     simp [GetInventoryForLocation, GetOrderShipments, GetOrderShipment,
       CreateOrderShipment, UpdateOrderShipment, h1, h2, h3])

/-- An environment whose transport always answers 204 with an empty body
and whose body extractor refuses it. -/
def env204 : Env :=
  { Do := fun _ => .ok { statusCode := 204, body := "" }
  , processBody := fun _ => .error "no content"
  , unmarshalInventory := fun _ => .error "unexpected end of JSON input"
  , unmarshalShipments := fun _ => .error "unexpected end of JSON input"
  , unmarshalShipment := fun _ => .error "unexpected end of JSON input" }

/-- C2 witness: all five operations against the 204 environment. -/
theorem no_content_yields_zero_value_witness :
    GetInventoryForLocation env204 42 [] = .ok {} ∧
    GetOrderShipments env204 55 [] = .ok [] ∧
    GetOrderShipment env204 55 9 = .ok (some {}) ∧
    CreateOrderShipment env204 55 {} = .ok (some {}) ∧
    UpdateOrderShipment env204 55 {} = .ok (some {}) := by
  obtain ⟨h1, h2, h3, h4, h5⟩ := no_content_yields_zero_value env204 42 55 9 [] [] {}
  exact ⟨h1 _ _ rfl rfl rfl, h2 _ _ rfl rfl rfl, h3 _ _ rfl rfl rfl,
    h4 _ _ rfl rfl rfl, h5 _ _ rfl rfl rfl⟩

/-- C3: both delete operations never look at the response — whatever
response the transport returns (any status code, any body), they yield
`(true, nil)`; they fail only on a transport-level error. -/
theorem delete_ignores_response_status (env : Env) (orderId shipmentId : Int) :
    (∀ res, env.Do (deleteShipmentsRequest orderId) = .ok res →
      DeleteOrderShipments env orderId = (true, none)) ∧
    (∀ res, env.Do (deleteShipmentRequest orderId shipmentId) = .ok res →
      DeleteOrderShipment env orderId shipmentId = (true, none)) := by
  constructor <;>
    (intro res h;
     simp [DeleteOrderShipments, DeleteOrderShipment, h])

/-- An environment whose transport always answers 404. -/
def env404 : Env :=
  { Do := fun _ => .ok { statusCode := 404, body := "404 Not Found" }
  , processBody := fun r => .ok r.body
  , unmarshalInventory := fun _ => .error "decode"
  , unmarshalShipments := fun _ => .error "decode"
  , unmarshalShipment := fun _ => .error "decode" }

/-- C3 witness: `DeleteOrderShipment 7 99` (and the bulk delete) report
success against a server that answers 404. -/
theorem delete_ignores_response_status_witness :
    DeleteOrderShipment env404 7 99 = (true, none) ∧
    DeleteOrderShipments env404 7 = (true, none) := by
  obtain ⟨h1, h2⟩ := delete_ignores_response_status env404 7 99
  exact ⟨h2 _ rfl, h1 _ rfl⟩

/-- C6: every operation surfaces a transport failure unchanged, and every
decoding operation surfaces an unmarshalling failure (e.g., malformed JSON
on a 200 response) unchanged — no wrapping, no retry, no silent zero
value. -/
theorem failures_propagate_unchanged (env : Env) (ID orderId shipmentId : Int)
    (filters filters2 : List (String × String)) (s : Shipment) :
    (∀ e, env.Do (getInventoryRequest ID filters) = .error e →
      GetInventoryForLocation env ID filters = .error e) ∧
    (∀ e, env.Do (getOrderShipmentsRequest orderId filters2) = .error e →
      GetOrderShipments env orderId filters2 = .error e) ∧
    (∀ e, env.Do (getOrderShipmentRequest orderId shipmentId) = .error e →
      GetOrderShipment env orderId shipmentId = .error e) ∧
    (∀ e, env.Do (createShipmentRequest orderId s) = .error e →
      CreateOrderShipment env orderId s = .error e) ∧
    (∀ e, env.Do (updateShipmentRequest orderId s) = .error e →
      UpdateOrderShipment env orderId s = .error e) ∧
    (∀ e, env.Do (deleteShipmentsRequest orderId) = .error e →
      DeleteOrderShipments env orderId = (false, some e)) ∧
    (∀ e, env.Do (deleteShipmentRequest orderId shipmentId) = .error e →
      DeleteOrderShipment env orderId shipmentId = (false, some e)) ∧
    (∀ res body e, env.Do (getInventoryRequest ID filters) = .ok res →
      env.processBody res = .ok body → env.unmarshalInventory body = .error e →
      GetInventoryForLocation env ID filters = .error e) ∧
    (∀ res body e, env.Do (getOrderShipmentsRequest orderId filters2) = .ok res →
      env.processBody res = .ok body → env.unmarshalShipments body = .error e →
      GetOrderShipments env orderId filters2 = .error e) ∧
    (∀ res body e, env.Do (getOrderShipmentRequest orderId shipmentId) = .ok res →
      env.processBody res = .ok body → env.unmarshalShipment body = .error e →
      GetOrderShipment env orderId shipmentId = .error e) ∧
    (∀ res body e, env.Do (createShipmentRequest orderId s) = .ok res →
      env.processBody res = .ok body → env.unmarshalShipment body = .error e →
      CreateOrderShipment env orderId s = .error e) ∧
    (∀ res body e, env.Do (updateShipmentRequest orderId s) = .ok res →
      env.processBody res = .ok body → env.unmarshalShipment body = .error e →
      UpdateOrderShipment env orderId s = .error e) := by
  refine ⟨?_, ?_, ?_, ?_, ?_, ?_, ?_, ?_, ?_, ?_, ?_, ?_⟩ <;>
    first
    | (intro e h;
       simp [GetInventoryForLocation, GetOrderShipments, GetOrderShipment,
         CreateOrderShipment, UpdateOrderShipment, DeleteOrderShipments,
         DeleteOrderShipment, h])
    | (intro res body e h1 h2 h3;
       simp [GetInventoryForLocation, GetOrderShipments, GetOrderShipment,
         CreateOrderShipment, UpdateOrderShipment, h1, h2, h3])

/-- An environment whose transport always fails with a connection error. -/
def envDown : Env :=
  { Do := fun _ => .error "dial tcp: connection refused"
  , processBody := fun r => .ok r.body
  , unmarshalInventory := fun _ => .error "decode"
  , unmarshalShipments := fun _ => .error "decode"
  , unmarshalShipment := fun _ => .error "decode" }

/-- An environment whose transport answers 200 with a malformed JSON body
that every unmarshaller rejects. -/
def envBadJSON : Env :=
  { Do := fun _ => .ok { statusCode := 200, body := "\x7b" }
  , processBody := fun r => .ok r.body
  , unmarshalInventory := fun _ => .error "unexpected end of JSON input"
  , unmarshalShipments := fun _ => .error "unexpected end of JSON input"
  , unmarshalShipment := fun _ => .error "unexpected end of JSON input" }

/-- C6 witness: all twelve failure paths at concrete environments — the
seven operations against a failing transport, and the five decoding
operations against a 200 response carrying malformed JSON. -/
theorem failures_propagate_unchanged_witness :
    GetInventoryForLocation envDown 42 [] = .error "dial tcp: connection refused" ∧
    GetOrderShipments envDown 55 [] = .error "dial tcp: connection refused" ∧
    GetOrderShipment envDown 55 9 = .error "dial tcp: connection refused" ∧
    CreateOrderShipment envDown 55 {} = .error "dial tcp: connection refused" ∧
    UpdateOrderShipment envDown 55 {} = .error "dial tcp: connection refused" ∧
    DeleteOrderShipments envDown 55 = (false, some "dial tcp: connection refused") ∧
    DeleteOrderShipment envDown 7 99 = (false, some "dial tcp: connection refused") ∧
    GetInventoryForLocation envBadJSON 42 [] = .error "unexpected end of JSON input" ∧
    GetOrderShipments envBadJSON 55 [] = .error "unexpected end of JSON input" ∧
    GetOrderShipment envBadJSON 55 9 = .error "unexpected end of JSON input" ∧
    CreateOrderShipment envBadJSON 55 {} = .error "unexpected end of JSON input" ∧
    UpdateOrderShipment envBadJSON 55 {} = .error "unexpected end of JSON input" := by
  obtain ⟨d1, d2, d3, d4, d5, d6, d7, -, -, -, -, -⟩ :=
    failures_propagate_unchanged envDown 42 55 9 [] [] {}
  obtain ⟨-, -, -, -, -, -, -, b1, b2, b3, b4, b5⟩ :=
    failures_propagate_unchanged envBadJSON 42 55 9 [] [] {}
  have hd7 := (failures_propagate_unchanged envDown 42 7 99 [] [] {}).2.2.2.2.2.2.1
  exact ⟨d1 _ rfl, d2 _ rfl, d3 _ rfl, d4 _ rfl, d5 _ rfl, d6 _ rfl, hd7 _ rfl,
    b1 _ _ _ rfl rfl rfl, b2 _ _ _ rfl rfl rfl, b3 _ _ _ rfl rfl rfl,
    b4 _ _ _ rfl rfl rfl, b5 _ _ _ rfl rfl rfl⟩
